import Mathlib

/-!
Shallow embedding of `src/1/corobus.cpp`: an in-process message bus for
cooperatively scheduled coroutines.  Channels hold a bounded FIFO of
messages plus two wait queues of parked coroutines; a descriptor table
maps small integer ids to channels; a scheduler-global error slot is
written by the public operations.

Coroutine handles are abstracted as naturals.  Each public operation is
modelled as a pure function from a `BusState` (descriptor table plus the
global errno) to an `OpResult`, which records the new state, the ordered
list of errno writes performed, the ordered list of coroutines woken, the
values written through the caller's output buffer, and the outcome: a
returned value, or a suspension (`parked`) of the calling coroutine on one
of the channel's wait queues.  Blocking operations are modelled by their
single non-suspending attempt (one trip through the retry loop body up to
the first return or suspension), which is the atomic unit of execution
under the single-threaded cooperative scheduler.
-/

/-- Coroutine handles (`struct coro *` in the source), abstracted as naturals. -/
abbrev Coro := Nat

/-- The error codes of `coro_bus_errno`. -/
inductive coro_bus_error_code where
  | CORO_BUS_ERR_NONE
  | CORO_BUS_ERR_NO_CHANNEL
  | CORO_BUS_ERR_WOULD_BLOCK
  | CORO_BUS_ERR_NOT_IMPLEMENTED
deriving DecidableEq, Repr

open coro_bus_error_code

/-- `struct coro_bus_channel`: capacity, the two wait queues (FIFO lists of
parked coroutines, head = first to be woken) and the message FIFO
(head = next message to be received). -/
structure coro_bus_channel where
  size_limit : Nat
  send_queue : List Coro
  recv_queue : List Coro
  message_queue : List Nat
deriving DecidableEq, Repr

/-- `struct coro_bus`: the descriptor table.  A `none` entry is a hole
(`nullptr` slot); the list length is `channel_count`. -/
structure coro_bus where
  channels : List (Option coro_bus_channel)
deriving DecidableEq, Repr

/-- The descriptor table together with the scheduler-global `global_errno`. -/
structure BusState where
  bus : coro_bus
  errno : coro_bus_error_code
deriving DecidableEq, Repr

/-- Outcome of one non-suspending attempt: either the call returned `ret`,
or the calling coroutine parked on a wait queue. -/
inductive coro_bus_outcome where
  | done (ret : Int)
  | parked
deriving DecidableEq, Repr

/-- Result of one operation (or one attempt of a blocking operation). -/
structure OpResult where
  state : BusState
  writes : List coro_bus_error_code
  woken : List Coro
  out : List Nat
  outcome : coro_bus_outcome
deriving DecidableEq, Repr

/-- `get_bus_channel`: resolve a channel id; `none` for a negative id, an id
past the table, or a hole. -/
def get_bus_channel (b : coro_bus) (index : Int) : Option coro_bus_channel :=
  if index < 0 then none
  else
    match b.channels[index.toNat]? with
    | none => none
    | some slot => slot

/-- Overwrite one descriptor-table slot (`coroutines_bus->channels[index] = …`). -/
def set_channel (b : coro_bus) (index : Int) (slot : Option coro_bus_channel) : coro_bus :=
  { channels := b.channels.set index.toNat slot }

/-- `is_bus_has_any_channels`: does any slot hold a channel? -/
def is_bus_has_any_channels (b : coro_bus) : Bool :=
  b.channels.any fun slot => slot.isSome

/-- `wakeup_queue_wakeup_first`: pop the head waiter (if any) and wake it.
Returns (woken coroutines, remaining queue). -/
def wakeup_first (q : List Coro) : List Coro × List Coro :=
  match q with
  | [] => ([], [])
  | c :: rest => ([c], rest)

/-- `n` successive calls to `wakeup_queue_wakeup_first` (the wake loops of the
batch operations).  Returns (woken coroutines in wake order, remaining queue). -/
def wakeup_n (q : List Coro) : Nat → List Coro × List Coro
  | 0 => ([], q)
  | n + 1 =>
    match q with
    | [] => ([], [])
    | c :: rest =>
      let (w, r) := wakeup_n rest n
      (c :: w, r)

/-- `wakeup_queue_wakeup_all`: pop-and-wake until the queue is empty.  The
waiters are woken in FIFO order and the queue is left empty. -/
def wakeup_all (q : List Coro) : List Coro := q

/-- `coro_bus_channel_open`: promote capacity 0 to 1, reuse the first hole if
one exists, otherwise double the table (initial 2), zero the new tail and
install the channel at the former end. -/
def coro_bus_channel_open (s : BusState) (size_limit : Nat) : OpResult :=
  let sl := if size_limit = 0 then 1 else size_limit
  let fresh : coro_bus_channel :=
    { size_limit := sl, send_queue := [], recv_queue := [], message_queue := [] }
  match s.bus.channels.findIdx? fun slot => slot.isNone with
  | some index =>
    { state := { bus := { channels := s.bus.channels.set index (some fresh) },
                 errno := CORO_BUS_ERR_NONE },
      writes := [CORO_BUS_ERR_NONE], woken := [], out := [],
      outcome := .done index }
  | none =>
    let old_capacity := s.bus.channels.length
    let new_doubled_cap := if old_capacity = 0 then 2 else old_capacity * 2
    let grown := s.bus.channels ++ List.replicate (new_doubled_cap - old_capacity) none
    { state := { bus := { channels := grown.set old_capacity (some fresh) },
                 errno := CORO_BUS_ERR_NONE },
      writes := [CORO_BUS_ERR_NONE], woken := [], out := [],
      outcome := .done old_capacity }

/-- `coro_bus_channel_close`: no-op on an unresolved id (no errno write);
otherwise null the slot first, then wake all send waiters, then all recv
waiters (each unlinked by the waker), then destroy the channel.  The source
never writes the error slot in this function. -/
def coro_bus_channel_close (s : BusState) (channel : Int) : OpResult :=
  match get_bus_channel s.bus channel with
  | none =>
    { state := s, writes := [], woken := [], out := [], outcome := .done 0 }
  | some current_channel =>
    { state := { bus := set_channel s.bus channel none, errno := s.errno },
      writes := [],
      woken := wakeup_all current_channel.send_queue ++ wakeup_all current_channel.recv_queue,
      out := [], outcome := .done 0 }

/-- `coro_bus_try_send`: `NO_CHANNEL` on an unresolved id, `WOULD_BLOCK` on a
full fifo (no mutation), otherwise append at the tail, wake the first recv
waiter, set `NONE` and return 0. -/
def coro_bus_try_send (s : BusState) (channel : Int) (data : Nat) : OpResult :=
  match get_bus_channel s.bus channel with
  | none =>
    { state := { bus := s.bus, errno := CORO_BUS_ERR_NO_CHANNEL },
      writes := [CORO_BUS_ERR_NO_CHANNEL], woken := [], out := [],
      outcome := .done (-1) }
  | some current_channel =>
    if current_channel.size_limit ≤ current_channel.message_queue.length then
      { state := { bus := s.bus, errno := CORO_BUS_ERR_WOULD_BLOCK },
        writes := [CORO_BUS_ERR_WOULD_BLOCK], woken := [], out := [],
        outcome := .done (-1) }
    else
      let wr := wakeup_first current_channel.recv_queue
      let ch2 := { current_channel with
                   message_queue := current_channel.message_queue ++ [data],
                   recv_queue := wr.2 }
      { state := { bus := set_channel s.bus channel (some ch2),
                   errno := CORO_BUS_ERR_NONE },
        writes := [CORO_BUS_ERR_NONE], woken := wr.1, out := [],
        outcome := .done 0 }

/-- `coro_bus_try_recv`: `NO_CHANNEL` on an unresolved id, `WOULD_BLOCK` on an
empty fifo (no mutation), otherwise pop the head into the caller's buffer,
wake the first send waiter, set `NONE` and return 0. -/
def coro_bus_try_recv (s : BusState) (channel : Int) : OpResult :=
  match get_bus_channel s.bus channel with
  | none =>
    { state := { bus := s.bus, errno := CORO_BUS_ERR_NO_CHANNEL },
      writes := [CORO_BUS_ERR_NO_CHANNEL], woken := [], out := [],
      outcome := .done (-1) }
  | some current_channel =>
    match current_channel.message_queue with
    | [] =>
      { state := { bus := s.bus, errno := CORO_BUS_ERR_WOULD_BLOCK },
        writes := [CORO_BUS_ERR_WOULD_BLOCK], woken := [], out := [],
        outcome := .done (-1) }
    | front :: rest =>
      let wr := wakeup_first current_channel.send_queue
      let ch2 := { current_channel with message_queue := rest, send_queue := wr.2 }
      { state := { bus := set_channel s.bus channel (some ch2),
                   errno := CORO_BUS_ERR_NONE },
        writes := [CORO_BUS_ERR_NONE], woken := wr.1, out := [front],
        outcome := .done 0 }

/-- One trip through the retry loop of `coro_bus_send` up to the first return
or suspension: try to send; on success or a non-`WOULD_BLOCK` error return;
otherwise re-resolve the channel (`NO_CHANNEL` if it vanished) and park the
calling coroutine `self` at the tail of its send queue. -/
def coro_bus_send_attempt (s : BusState) (channel : Int) (data : Nat) (self : Coro) : OpResult :=
  let r := coro_bus_try_send s channel data
  if r.outcome = .done 0 then r
  else if r.state.errno ≠ CORO_BUS_ERR_WOULD_BLOCK then r
  else
    match get_bus_channel r.state.bus channel with
    | none =>
      { state := { bus := r.state.bus, errno := CORO_BUS_ERR_NO_CHANNEL },
        writes := r.writes ++ [CORO_BUS_ERR_NO_CHANNEL], woken := r.woken, out := [],
        outcome := .done (-1) }
    | some current_channel =>
      let ch2 := { current_channel with
                   send_queue := current_channel.send_queue ++ [self] }
      { state := { bus := set_channel r.state.bus channel (some ch2),
                   errno := r.state.errno },
        writes := r.writes, woken := r.woken, out := [],
        outcome := .parked }

/-- One trip through the retry loop of `coro_bus_recv` up to the first return
or suspension (mirror of `coro_bus_send_attempt`, parking on the recv queue). -/
def coro_bus_recv_attempt (s : BusState) (channel : Int) (self : Coro) : OpResult :=
  let r := coro_bus_try_recv s channel
  if r.outcome = .done 0 then r
  else if r.state.errno ≠ CORO_BUS_ERR_WOULD_BLOCK then r
  else
    match get_bus_channel r.state.bus channel with
    | none =>
      { state := { bus := r.state.bus, errno := CORO_BUS_ERR_NO_CHANNEL },
        writes := r.writes ++ [CORO_BUS_ERR_NO_CHANNEL], woken := r.woken, out := [],
        outcome := .done (-1) }
    | some current_channel =>
      let ch2 := { current_channel with
                   recv_queue := current_channel.recv_queue ++ [self] }
      { state := { bus := set_channel r.state.bus channel (some ch2),
                   errno := r.state.errno },
        writes := r.writes, woken := r.woken, out := [],
        outcome := .parked }

/-- The full-channel scan of `coro_bus_try_broadcast`: is any open channel's
fifo at capacity? -/
def bus_has_full_channel (b : coro_bus) : Bool :=
  b.channels.any fun slot =>
    match slot with
    | none => false
    | some ch => ch.size_limit ≤ ch.message_queue.length

/-- The full-channel scan of `coro_bus_broadcast`: index of the first open
channel whose fifo is at capacity. -/
def find_full_idx (b : coro_bus) : Option Nat :=
  b.channels.findIdx? fun slot =>
    match slot with
    | none => false
    | some ch => ch.size_limit ≤ ch.message_queue.length

/-- The commit loop body of the broadcasts on one descriptor-table slot:
append `data` to an open channel's fifo and wake its first recv waiter.
Returns (new slot, woken coroutines). -/
def broadcast_push (slot : Option coro_bus_channel) (data : Nat) :
    Option coro_bus_channel × List Coro :=
  match slot with
  | none => (none, [])
  | some ch =>
    let wr := wakeup_first ch.recv_queue
    (some { ch with message_queue := ch.message_queue ++ [data], recv_queue := wr.2 }, wr.1)

/-- `coro_bus_try_broadcast`: `NO_CHANNEL` if no channel is open; `WOULD_BLOCK`
with no mutation if any open channel is full; otherwise commit `data` to
every open channel, waking one recv waiter per channel. -/
def coro_bus_try_broadcast (s : BusState) (data : Nat) : OpResult :=
  if ¬ is_bus_has_any_channels s.bus then
    { state := { bus := s.bus, errno := CORO_BUS_ERR_NO_CHANNEL },
      writes := [CORO_BUS_ERR_NO_CHANNEL], woken := [], out := [],
      outcome := .done (-1) }
  else if bus_has_full_channel s.bus then
    { state := { bus := s.bus, errno := CORO_BUS_ERR_WOULD_BLOCK },
      writes := [CORO_BUS_ERR_WOULD_BLOCK], woken := [], out := [],
      outcome := .done (-1) }
  else
    { state := { bus := { channels := s.bus.channels.map fun slot => (broadcast_push slot data).1 },
                 errno := CORO_BUS_ERR_NONE },
      writes := [CORO_BUS_ERR_NONE],
      woken := (s.bus.channels.map fun slot => (broadcast_push slot data).2).flatten,
      out := [], outcome := .done 0 }

/-- One trip through the retry loop of `coro_bus_broadcast` up to the first
return or suspension: `NO_CHANNEL` if no channel is open; if some open
channel is full, park on the first such channel's send queue; otherwise
commit to all.  The source re-resolves the full index before suspending;
within one non-suspending pass that lookup cannot fail, and its `continue`
re-scan is modelled as the (unreachable) parked fallback. -/
def coro_bus_broadcast_attempt (s : BusState) (data : Nat) (self : Coro) : OpResult :=
  if ¬ is_bus_has_any_channels s.bus then
    { state := { bus := s.bus, errno := CORO_BUS_ERR_NO_CHANNEL },
      writes := [CORO_BUS_ERR_NO_CHANNEL], woken := [], out := [],
      outcome := .done (-1) }
  else
    match find_full_idx s.bus with
    | none =>
      { state := { bus := { channels := s.bus.channels.map fun slot => (broadcast_push slot data).1 },
                   errno := CORO_BUS_ERR_NONE },
        writes := [CORO_BUS_ERR_NONE],
        woken := (s.bus.channels.map fun slot => (broadcast_push slot data).2).flatten,
        out := [], outcome := .done 0 }
    | some full_idx =>
      match get_bus_channel s.bus (full_idx : Int) with
      | none =>
        { state := s, writes := [], woken := [], out := [], outcome := .parked }
      | some current_channel =>
        let ch2 := { current_channel with
                     send_queue := current_channel.send_queue ++ [self] }
        { state := { bus := set_channel s.bus (full_idx : Int) (some ch2),
                     errno := s.errno },
          writes := [], woken := [], out := [], outcome := .parked }

/-- One trip through the retry loop of `coro_bus_send_v` up to the first
return or suspension.  A null buffer with a nonzero count is rejected with
return −1 after writing `NONE`; an unresolved id is `NO_CHANNEL`; when no
space is available the caller parks on the send queue; otherwise
`to_send = min count available` messages are appended and that many recv
waiters are woken. -/
def coro_bus_send_v_attempt (s : BusState) (channel : Int) (data : Option (List Nat))
    (count : Nat) (self : Coro) : OpResult :=
  if data = none ∧ count ≠ 0 then
    { state := { bus := s.bus, errno := CORO_BUS_ERR_NONE },
      writes := [CORO_BUS_ERR_NONE], woken := [], out := [],
      outcome := .done (-1) }
  else
    match get_bus_channel s.bus channel with
    | none =>
      { state := { bus := s.bus, errno := CORO_BUS_ERR_NO_CHANNEL },
        writes := [CORO_BUS_ERR_NO_CHANNEL], woken := [], out := [],
        outcome := .done (-1) }
    | some current_channel =>
      let available_size := current_channel.size_limit - current_channel.message_queue.length
      if available_size = 0 then
        let ch2 := { current_channel with
                     send_queue := current_channel.send_queue ++ [self] }
        { state := { bus := set_channel s.bus channel (some ch2), errno := s.errno },
          writes := [], woken := [], out := [], outcome := .parked }
      else
        let to_send := min count available_size
        let wr := wakeup_n current_channel.recv_queue to_send
        let ch2 := { current_channel with
                     message_queue := current_channel.message_queue ++ (data.getD []).take to_send,
                     recv_queue := wr.2 }
        { state := { bus := set_channel s.bus channel (some ch2),
                     errno := CORO_BUS_ERR_NONE },
          writes := [CORO_BUS_ERR_NONE], woken := wr.1, out := [],
          outcome := .done to_send }

/-- `coro_bus_try_send_v`: as one `send_v` attempt, but `WOULD_BLOCK` instead
of parking when no space is available. -/
def coro_bus_try_send_v (s : BusState) (channel : Int) (data : Option (List Nat))
    (count : Nat) : OpResult :=
  if data = none ∧ count ≠ 0 then
    { state := { bus := s.bus, errno := CORO_BUS_ERR_NONE },
      writes := [CORO_BUS_ERR_NONE], woken := [], out := [],
      outcome := .done (-1) }
  else
    match get_bus_channel s.bus channel with
    | none =>
      { state := { bus := s.bus, errno := CORO_BUS_ERR_NO_CHANNEL },
        writes := [CORO_BUS_ERR_NO_CHANNEL], woken := [], out := [],
        outcome := .done (-1) }
    | some current_channel =>
      let available_size := current_channel.size_limit - current_channel.message_queue.length
      if available_size = 0 then
        { state := { bus := s.bus, errno := CORO_BUS_ERR_WOULD_BLOCK },
          writes := [CORO_BUS_ERR_WOULD_BLOCK], woken := [], out := [],
          outcome := .done (-1) }
      else
        let to_send := min count available_size
        let wr := wakeup_n current_channel.recv_queue to_send
        let ch2 := { current_channel with
                     message_queue := current_channel.message_queue ++ (data.getD []).take to_send,
                     recv_queue := wr.2 }
        { state := { bus := set_channel s.bus channel (some ch2),
                     errno := CORO_BUS_ERR_NONE },
          writes := [CORO_BUS_ERR_NONE], woken := wr.1, out := [],
          outcome := .done to_send }

/-- One trip through the retry loop of `coro_bus_recv_v` up to the first
return or suspension.  The null-buffer guard mirrors `send_v` with the
caller-buffer capacity in place of the count; an empty fifo parks the caller
on the recv queue; otherwise `to_receive = min (len fifo) capacity` messages
are popped into the caller's buffer and that many send waiters are woken. -/
def coro_bus_recv_v_attempt (s : BusState) (channel : Int) (data : Option (List Nat))
    (capacity : Nat) (self : Coro) : OpResult :=
  if data = none ∧ capacity ≠ 0 then
    { state := { bus := s.bus, errno := CORO_BUS_ERR_NONE },
      writes := [CORO_BUS_ERR_NONE], woken := [], out := [],
      outcome := .done (-1) }
  else
    match get_bus_channel s.bus channel with
    | none =>
      { state := { bus := s.bus, errno := CORO_BUS_ERR_NO_CHANNEL },
        writes := [CORO_BUS_ERR_NO_CHANNEL], woken := [], out := [],
        outcome := .done (-1) }
    | some current_channel =>
      if current_channel.message_queue.isEmpty then
        let ch2 := { current_channel with
                     recv_queue := current_channel.recv_queue ++ [self] }
        { state := { bus := set_channel s.bus channel (some ch2), errno := s.errno },
          writes := [], woken := [], out := [], outcome := .parked }
      else
        let to_receive := min current_channel.message_queue.length capacity
        let wr := wakeup_n current_channel.send_queue to_receive
        let ch2 := { current_channel with
                     message_queue := current_channel.message_queue.drop to_receive,
                     send_queue := wr.2 }
        { state := { bus := set_channel s.bus channel (some ch2),
                     errno := CORO_BUS_ERR_NONE },
          writes := [CORO_BUS_ERR_NONE], woken := wr.1,
          out := current_channel.message_queue.take to_receive,
          outcome := .done to_receive }

/-- `coro_bus_try_recv_v`: as one `recv_v` attempt, but `WOULD_BLOCK` instead
of parking when the fifo is empty. -/
def coro_bus_try_recv_v (s : BusState) (channel : Int) (data : Option (List Nat))
    (capacity : Nat) : OpResult :=
  if data = none ∧ capacity ≠ 0 then
    { state := { bus := s.bus, errno := CORO_BUS_ERR_NONE },
      writes := [CORO_BUS_ERR_NONE], woken := [], out := [],
      outcome := .done (-1) }
  else
    match get_bus_channel s.bus channel with
    | none =>
      { state := { bus := s.bus, errno := CORO_BUS_ERR_NO_CHANNEL },
        writes := [CORO_BUS_ERR_NO_CHANNEL], woken := [], out := [],
        outcome := .done (-1) }
    | some current_channel =>
      if current_channel.message_queue.isEmpty then
        { state := { bus := s.bus, errno := CORO_BUS_ERR_WOULD_BLOCK },
          writes := [CORO_BUS_ERR_WOULD_BLOCK], woken := [], out := [],
          outcome := .done (-1) }
      else
        let to_receive := min current_channel.message_queue.length capacity
        let wr := wakeup_n current_channel.send_queue to_receive
        let ch2 := { current_channel with
                     message_queue := current_channel.message_queue.drop to_receive,
                     send_queue := wr.2 }
        { state := { bus := set_channel s.bus channel (some ch2),
                     errno := CORO_BUS_ERR_NONE },
          writes := [CORO_BUS_ERR_NONE], woken := wr.1,
          out := current_channel.message_queue.take to_receive,
          outcome := .done to_receive }

/-- A completed operation on one channel, as observed by the channel: a
`send msg` is the completing `try_send` of some coroutine's send (blocking or
not — a blocking send completes through exactly such a successful attempt),
and a `recv` is the completing `try_recv` of some coroutine's receive.
Different actions may come from different coroutines. -/
inductive bus_action where
  | send (msg : Nat)
  | recv
deriving DecidableEq, Repr

/-- Run an arbitrary interleaving of send and recv completions on one
channel.  Returns the final state, the values delivered to the receivers in
completion order, and whether every operation in the trace completed
(returned 0). -/
def run_trace (s : BusState) (channel : Int) : List bus_action → BusState × List Nat × Bool
  | [] => (s, [], true)
  | .send m :: tr =>
    let r := coro_bus_try_send s channel m
    let p := run_trace r.state channel tr
    (p.1, p.2.1, decide (r.outcome = .done 0) && p.2.2)
  | .recv :: tr =>
    let r := coro_bus_try_recv s channel
    let p := run_trace r.state channel tr
    (p.1, r.out ++ p.2.1, decide (r.outcome = .done 0) && p.2.2)

/-- The messages sent by a trace, in completion order. -/
def sent_messages : List bus_action → List Nat
  | [] => []
  | .send m :: tr => m :: sent_messages tr
  | .recv :: tr => sent_messages tr

/-- Per-channel invariant: positive capacity and the fifo within capacity. -/
def ChannelInv (ch : coro_bus_channel) : Prop :=
  1 ≤ ch.size_limit ∧ ch.message_queue.length ≤ ch.size_limit

instance (ch : coro_bus_channel) : Decidable (ChannelInv ch) :=
  inferInstanceAs (Decidable (1 ≤ ch.size_limit ∧ ch.message_queue.length ≤ ch.size_limit))

/-- A descriptor-table slot is either a hole or a channel satisfying `ChannelInv`. -/
def slot_inv : Option coro_bus_channel → Prop
  | none => True
  | some ch => ChannelInv ch

instance : (slot : Option coro_bus_channel) → Decidable (slot_inv slot)
  | none => .isTrue trivial
  | some ch => inferInstanceAs (Decidable (ChannelInv ch))

/-- Bus invariant: every open channel satisfies `ChannelInv`. -/
def BusInv (b : coro_bus) : Prop :=
  ∀ slot ∈ b.channels, slot_inv slot

instance (b : coro_bus) : Decidable (BusInv b) :=
  List.decidableBAll _ _

theorem wakeup_first_fst (q : List Coro) : (wakeup_first q).1 = q.take 1 := by
  cases q <;> rfl

theorem wakeup_first_snd (q : List Coro) : (wakeup_first q).2 = q.drop 1 := by
  cases q <;> rfl

theorem wakeup_n_fst (q : List Coro) (n : Nat) : (wakeup_n q n).1 = q.take n := by
  induction n generalizing q with
  | zero => simp [wakeup_n]
  | succ n ih =>
    cases q with
    | nil => rfl
    | cons c rest => simp [wakeup_n, ih]

theorem wakeup_n_snd (q : List Coro) (n : Nat) : (wakeup_n q n).2 = q.drop n := by
  induction n generalizing q with
  | zero => simp [wakeup_n]
  | succ n ih =>
    cases q with
    | nil => rfl
    | cons c rest => simp [wakeup_n, ih]

theorem get_bus_channel_nonneg {b : coro_bus} {i : Int} {ch : coro_bus_channel}
    (h : get_bus_channel b i = some ch) : 0 ≤ i := by
  by_contra hneg
  rw [get_bus_channel, if_pos (by omega)] at h
  exact Option.noConfusion h

theorem get_bus_channel_getElem {b : coro_bus} {i : Int} {ch : coro_bus_channel}
    (h : get_bus_channel b i = some ch) : b.channels[i.toNat]? = some (some ch) := by
  have h0 : ¬ i < 0 := by have := get_bus_channel_nonneg h; omega
  rw [get_bus_channel, if_neg h0] at h
  cases hg : b.channels[i.toNat]? with
  | none => rw [hg] at h; exact Option.noConfusion h
  | some slot =>
    rw [hg] at h
    exact congrArg some h

theorem get_bus_channel_lt {b : coro_bus} {i : Int} {ch : coro_bus_channel}
    (h : get_bus_channel b i = some ch) : i.toNat < b.channels.length :=
  (List.getElem?_eq_some.mp (get_bus_channel_getElem h)).1

theorem get_bus_channel_mem {b : coro_bus} {i : Int} {ch : coro_bus_channel}
    (h : get_bus_channel b i = some ch) : some ch ∈ b.channels :=
  List.getElem?_mem (get_bus_channel_getElem h)

theorem get_set_channel_self {b : coro_bus} {i : Int} (v : Option coro_bus_channel)
    (h0 : 0 ≤ i) (hlt : i.toNat < b.channels.length) :
    get_bus_channel (set_channel b i v) i = v := by
  rw [get_bus_channel, if_neg (by omega), set_channel]
  rw [show ({ channels := b.channels.set i.toNat v } : coro_bus).channels
        = b.channels.set i.toNat v from rfl]
  rw [List.getElem?_set_eq_of_lt v hlt]

theorem get_set_channel_other {b : coro_bus} {i : Int} (j : Int) (v : Option coro_bus_channel)
    (h0 : 0 ≤ i) (hij : j ≠ i) :
    get_bus_channel (set_channel b i v) j = get_bus_channel b j := by
  by_cases hj : j < 0
  · rw [get_bus_channel, if_pos hj, get_bus_channel, if_pos hj]
  · have hne : i.toNat ≠ j.toNat := by omega
    rw [get_bus_channel, if_neg hj, get_bus_channel, if_neg hj, set_channel]
    rw [show ({ channels := b.channels.set i.toNat v } : coro_bus).channels
          = b.channels.set i.toNat v from rfl]
    rw [List.getElem?_set_ne hne]

theorem ChannelInv_of_get {b : coro_bus} {i : Int} {ch : coro_bus_channel}
    (hinv : BusInv b) (h : get_bus_channel b i = some ch) : ChannelInv ch :=
  hinv (some ch) (get_bus_channel_mem h)

theorem BusInv_set {b : coro_bus} {i : Int} {v : Option coro_bus_channel}
    (hinv : BusInv b) (hv : slot_inv v) : BusInv (set_channel b i v) := by
  intro slot hmem
  rcases List.mem_or_eq_of_mem_set hmem with hmem' | rfl
  · exact hinv slot hmem'
  · exact hv

theorem BusInv_try_send {s : BusState} (channel : Int) (data : Nat)
    (hinv : BusInv s.bus) : BusInv (coro_bus_try_send s channel data).state.bus := by
  simp only [coro_bus_try_send]
  split
  · exact hinv
  next ch heq =>
    split
    · exact hinv
    next hfull =>
      refine BusInv_set hinv ?_
      have hi := ChannelInv_of_get hinv heq
      refine ⟨hi.1, ?_⟩
      simp only [List.length_append, List.length_cons, List.length_nil]
      omega

theorem BusInv_try_recv {s : BusState} (channel : Int)
    (hinv : BusInv s.bus) : BusInv (coro_bus_try_recv s channel).state.bus := by
  simp only [coro_bus_try_recv]
  split
  · exact hinv
  next ch heq =>
    split
    · exact hinv
    next front rest hq =>
      refine BusInv_set hinv ?_
      have hi := ChannelInv_of_get hinv heq
      refine ⟨hi.1, ?_⟩
      have h2 := hi.2
      rw [hq] at h2
      simpa using Nat.le_of_succ_le h2

theorem BusInv_send_attempt {s : BusState} (channel : Int) (data : Nat) (self : Coro)
    (hinv : BusInv s.bus) : BusInv (coro_bus_send_attempt s channel data self).state.bus := by
  have h1 := BusInv_try_send (s := s) channel data hinv
  simp only [coro_bus_send_attempt]
  split
  · exact h1
  split
  · exact h1
  split
  · exact h1
  next ch heq =>
    refine BusInv_set h1 ?_
    have hi := ChannelInv_of_get h1 heq
    exact ⟨hi.1, by simpa using hi.2⟩

theorem BusInv_recv_attempt {s : BusState} (channel : Int) (self : Coro)
    (hinv : BusInv s.bus) : BusInv (coro_bus_recv_attempt s channel self).state.bus := by
  have h1 := BusInv_try_recv (s := s) channel hinv
  simp only [coro_bus_recv_attempt]
  split
  · exact h1
  split
  · exact h1
  split
  · exact h1
  next ch heq =>
    refine BusInv_set h1 ?_
    have hi := ChannelInv_of_get h1 heq
    exact ⟨hi.1, by simpa using hi.2⟩

theorem BusInv_open {s : BusState} (size_limit : Nat)
    (hinv : BusInv s.bus) : BusInv (coro_bus_channel_open s size_limit).state.bus := by
  have hfresh : ChannelInv
      { size_limit := if size_limit = 0 then 1 else size_limit,
        send_queue := [], recv_queue := [], message_queue := [] } := by
    constructor
    · by_cases h : size_limit = 0 <;> simp [h]
      omega
    · simp
  simp only [coro_bus_channel_open]
  split
  · intro slot hmem
    rcases List.mem_or_eq_of_mem_set hmem with hmem2 | rfl
    · exact hinv slot hmem2
    · exact hfresh
  · intro slot hmem
    rcases List.mem_or_eq_of_mem_set hmem with hmem2 | rfl
    · rcases List.mem_append.mp hmem2 with hmem3 | hmem3
      · exact hinv slot hmem3
      · rw [List.eq_of_mem_replicate hmem3]
        trivial
    · exact hfresh

theorem BusInv_close {s : BusState} (channel : Int)
    (hinv : BusInv s.bus) : BusInv (coro_bus_channel_close s channel).state.bus := by
  simp only [coro_bus_channel_close]
  split
  · exact hinv
  · exact BusInv_set hinv trivial

theorem BusInv_broadcast_commit {s : BusState} (data : Nat)
    (hinv : BusInv s.bus)
    (hnofull : ∀ ch, some ch ∈ s.bus.channels → ch.message_queue.length < ch.size_limit) :
    BusInv { channels := s.bus.channels.map fun slot => (broadcast_push slot data).1 } := by
  intro slot hmem
  rcases List.mem_map.mp hmem with ⟨slot0, hmem0, rfl⟩
  cases slot0 with
  | none => trivial
  | some ch =>
    have hch := hinv (some ch) hmem0
    have hlt := hnofull ch hmem0
    refine ⟨hch.1, ?_⟩
    simp [broadcast_push]
    omega

theorem BusInv_try_broadcast {s : BusState} (data : Nat)
    (hinv : BusInv s.bus) : BusInv (coro_bus_try_broadcast s data).state.bus := by
  simp only [coro_bus_try_broadcast]
  split
  · exact hinv
  next hany =>
    split
    · exact hinv
    next hfull =>
      refine BusInv_broadcast_commit data hinv ?_
      intro ch hmem
      by_contra hge
      apply hfull
      unfold bus_has_full_channel
      rw [List.any_eq_true]
      refine ⟨some ch, hmem, ?_⟩
      simp only [decide_eq_true_eq]
      omega

theorem BusInv_broadcast_attempt {s : BusState} (data : Nat) (self : Coro)
    (hinv : BusInv s.bus) : BusInv (coro_bus_broadcast_attempt s data self).state.bus := by
  simp only [coro_bus_broadcast_attempt]
  split
  · exact hinv
  next hany =>
    split
    next hf =>
      refine BusInv_broadcast_commit data hinv ?_
      intro ch hmem
      by_contra hge
      unfold find_full_idx at hf
      rw [List.findIdx?_eq_none_iff] at hf
      have h3 := hf (some ch) hmem
      simp at h3
      omega
    next full_idx hf =>
      split
      · exact hinv
      next ch heq =>
        refine BusInv_set hinv ?_
        have hi := ChannelInv_of_get hinv heq
        exact ⟨hi.1, by simpa using hi.2⟩

theorem BusInv_try_send_v {s : BusState} (channel : Int) (data : Option (List Nat)) (count : Nat)
    (hinv : BusInv s.bus) : BusInv (coro_bus_try_send_v s channel data count).state.bus := by
  simp only [coro_bus_try_send_v]
  split
  · exact hinv
  split
  · exact hinv
  next ch heq =>
    split
    · exact hinv
    next hava =>
      refine BusInv_set hinv ?_
      have hi := ChannelInv_of_get hinv heq
      refine ⟨hi.1, ?_⟩
      have hlen := List.length_take_le (min count (ch.size_limit - ch.message_queue.length))
        (data.getD [])
      simp only [List.length_append]
      omega

theorem BusInv_send_v_attempt {s : BusState} (channel : Int) (data : Option (List Nat))
    (count : Nat) (self : Coro)
    (hinv : BusInv s.bus) : BusInv (coro_bus_send_v_attempt s channel data count self).state.bus := by
  simp only [coro_bus_send_v_attempt]
  split
  · exact hinv
  split
  · exact hinv
  next ch heq =>
    split
    · refine BusInv_set hinv ?_
      have hi := ChannelInv_of_get hinv heq
      exact ⟨hi.1, by simpa using hi.2⟩
    next hava =>
      refine BusInv_set hinv ?_
      have hi := ChannelInv_of_get hinv heq
      refine ⟨hi.1, ?_⟩
      have hlen := List.length_take_le (min count (ch.size_limit - ch.message_queue.length))
        (data.getD [])
      simp only [List.length_append]
      omega

theorem BusInv_try_recv_v {s : BusState} (channel : Int) (data : Option (List Nat)) (capacity : Nat)
    (hinv : BusInv s.bus) : BusInv (coro_bus_try_recv_v s channel data capacity).state.bus := by
  simp only [coro_bus_try_recv_v]
  split
  · exact hinv
  split
  · exact hinv
  next ch heq =>
    split
    · exact hinv
    next hemp =>
      refine BusInv_set hinv ?_
      have hi := ChannelInv_of_get hinv heq
      refine ⟨hi.1, ?_⟩
      have h2 := hi.2
      simp only [List.length_drop]
      omega

theorem BusInv_recv_v_attempt {s : BusState} (channel : Int) (data : Option (List Nat))
    (capacity : Nat) (self : Coro)
    (hinv : BusInv s.bus) : BusInv (coro_bus_recv_v_attempt s channel data capacity self).state.bus := by
  simp only [coro_bus_recv_v_attempt]
  split
  · exact hinv
  split
  · exact hinv
  next ch heq =>
    split
    · refine BusInv_set hinv ?_
      have hi := ChannelInv_of_get hinv heq
      exact ⟨hi.1, by simpa using hi.2⟩
    next hemp =>
      refine BusInv_set hinv ?_
      have hi := ChannelInv_of_get hinv heq
      refine ⟨hi.1, ?_⟩
      have h2 := hi.2
      simp only [List.length_drop]
      omega

/-- A test channel: capacity 2, one parked sender, one parked receiver, one
queued message. -/
def testChannel : coro_bus_channel :=
  { size_limit := 2, send_queue := [11], recv_queue := [21], message_queue := [5] }

/-- A test bus: `testChannel` at id 0 and a hole at id 1. -/
def testState : BusState :=
  { bus := { channels := [some testChannel, none] }, errno := CORO_BUS_ERR_NONE }

/-- A test channel of capacity 1 whose fifo is full. -/
def fullChannel : coro_bus_channel :=
  { size_limit := 1, send_queue := [], recv_queue := [], message_queue := [5] }

/-- A test bus holding only the full channel at id 0. -/
def fullState : BusState :=
  { bus := { channels := [some fullChannel] }, errno := CORO_BUS_ERR_NONE }

/-- A test channel of capacity 3 with an empty fifo. -/
def emptyChannel : coro_bus_channel :=
  { size_limit := 3, send_queue := [], recv_queue := [], message_queue := [] }

/-- A test bus holding only the empty channel at id 0. -/
def emptyState : BusState :=
  { bus := { channels := [some emptyChannel] }, errno := CORO_BUS_ERR_NONE }

theorem try_send_writes_length (s : BusState) (channel : Int) (msg : Nat) :
    (coro_bus_try_send s channel msg).writes.length = 1 := by
  simp only [coro_bus_try_send]
  split
  · rfl
  split <;> rfl

theorem try_send_success_writes (s : BusState) (channel : Int) (msg : Nat)
    (h : (coro_bus_try_send s channel msg).outcome = .done 0) :
    (coro_bus_try_send s channel msg).writes = [CORO_BUS_ERR_NONE] := by
  revert h
  simp only [coro_bus_try_send]
  split
  · intro h
    exact absurd h (by simp)
  split
  · intro h
    exact absurd h (by simp)
  · intro h
    rfl

theorem try_send_wb (s : BusState) (channel : Int) (msg : Nat)
    (h : (coro_bus_try_send s channel msg).state.errno = CORO_BUS_ERR_WOULD_BLOCK) :
    (coro_bus_try_send s channel msg).state.bus = s.bus ∧
      get_bus_channel s.bus channel ≠ none := by
  revert h
  simp only [coro_bus_try_send]
  split
  · intro h
    exact absurd h (by simp)
  next ch heq =>
    split
    · intro _
      exact ⟨rfl, by simp [heq]⟩
    · intro h
      exact absurd h (by simp)

theorem try_recv_writes_length (s : BusState) (channel : Int) :
    (coro_bus_try_recv s channel).writes.length = 1 := by
  simp only [coro_bus_try_recv]
  split
  · rfl
  split <;> rfl

theorem try_recv_success_writes (s : BusState) (channel : Int)
    (h : (coro_bus_try_recv s channel).outcome = .done 0) :
    (coro_bus_try_recv s channel).writes = [CORO_BUS_ERR_NONE] := by
  revert h
  simp only [coro_bus_try_recv]
  split
  · intro h
    exact absurd h (by simp)
  split
  · intro h
    exact absurd h (by simp)
  · intro h
    rfl

theorem try_recv_wb (s : BusState) (channel : Int)
    (h : (coro_bus_try_recv s channel).state.errno = CORO_BUS_ERR_WOULD_BLOCK) :
    (coro_bus_try_recv s channel).state.bus = s.bus ∧
      get_bus_channel s.bus channel ≠ none := by
  revert h
  simp only [coro_bus_try_recv]
  split
  · intro h
    exact absurd h (by simp)
  next ch heq =>
    split
    · intro _
      exact ⟨rfl, by simp [heq]⟩
    · intro h
      exact absurd h (by simp)

/-- C1: `close` on an id that does not resolve is a complete no-op and sets no
error.  On an id that resolves, the descriptor slot is nulled (so any waiter
that re-resolves the id after resuming observes `NO_CHANNEL`), the send
waiters are woken first and the recv waiters after them, both in enqueue
order with the queues drained by the waker, every other slot is untouched,
the channel object is gone from the state, and no errno write happens. -/
theorem C1_close_protocol (s : BusState) (channel : Int) :
    (get_bus_channel s.bus channel = none →
      coro_bus_channel_close s channel =
        { state := s, writes := [], woken := [], out := [], outcome := .done 0 }) ∧
    (∀ ch, get_bus_channel s.bus channel = some ch →
      (coro_bus_channel_close s channel).writes = [] ∧
      (coro_bus_channel_close s channel).woken = ch.send_queue ++ ch.recv_queue ∧
      get_bus_channel (coro_bus_channel_close s channel).state.bus channel = none ∧
      (∀ j, j ≠ channel →
        get_bus_channel (coro_bus_channel_close s channel).state.bus j =
          get_bus_channel s.bus j) ∧
      (coro_bus_channel_close s channel).state.errno = s.errno) := by
  constructor
  · intro h
    simp [coro_bus_channel_close, h]
  · intro ch h
    simp only [coro_bus_channel_close, h, wakeup_all]
    refine ⟨trivial, trivial, ?_, ?_, trivial⟩
    · exact get_set_channel_self none (get_bus_channel_nonneg h) (get_bus_channel_lt h)
    · intro j hj
      exact get_set_channel_other j none (get_bus_channel_nonneg h) hj

theorem C1_close_protocol_witness :
    get_bus_channel testState.bus 0 = some testChannel ∧
    (coro_bus_channel_close testState 0).woken = [11, 21] ∧
    get_bus_channel (coro_bus_channel_close testState 0).state.bus 0 = none ∧
    (coro_bus_channel_close testState 0).writes = [] := by
  have h := (C1_close_protocol testState 0).2 testChannel (by decide)
  exact ⟨by decide, h.2.1.trans (by decide), h.2.2.1, h.1⟩

/-- C2: `try_send` fails with the error slot set to `NO_CHANNEL` when the id
does not resolve; fails with `WOULD_BLOCK` and leaves the whole bus (fifo
and both wait queues included) unchanged when the fifo is at capacity; and
otherwise appends the message at the fifo tail, wakes the first parked recv
waiter (if any), sets `NONE` and returns success. -/
theorem C2_try_send_contract (s : BusState) (channel : Int) (msg : Nat) :
    (get_bus_channel s.bus channel = none →
      (coro_bus_try_send s channel msg).outcome = .done (-1) ∧
      (coro_bus_try_send s channel msg).state.errno = CORO_BUS_ERR_NO_CHANNEL ∧
      (coro_bus_try_send s channel msg).state.bus = s.bus) ∧
    (∀ ch, get_bus_channel s.bus channel = some ch →
      ch.message_queue.length = ch.size_limit →
      (coro_bus_try_send s channel msg).outcome = .done (-1) ∧
      (coro_bus_try_send s channel msg).state.errno = CORO_BUS_ERR_WOULD_BLOCK ∧
      (coro_bus_try_send s channel msg).state.bus = s.bus) ∧
    (∀ ch, get_bus_channel s.bus channel = some ch →
      ch.message_queue.length < ch.size_limit →
      (coro_bus_try_send s channel msg).outcome = .done 0 ∧
      (coro_bus_try_send s channel msg).state.errno = CORO_BUS_ERR_NONE ∧
      (coro_bus_try_send s channel msg).woken = ch.recv_queue.take 1 ∧
      get_bus_channel (coro_bus_try_send s channel msg).state.bus channel =
        some { ch with message_queue := ch.message_queue ++ [msg],
                       recv_queue := ch.recv_queue.drop 1 } ∧
      (∀ j, j ≠ channel →
        get_bus_channel (coro_bus_try_send s channel msg).state.bus j =
          get_bus_channel s.bus j)) := by
  refine ⟨?_, ?_, ?_⟩
  · intro h
    simp [coro_bus_try_send, h]
  · intro ch h hfull
    simp only [coro_bus_try_send, h]
    rw [if_pos (by omega)]
    exact ⟨rfl, rfl, rfl⟩
  · intro ch h hroom
    simp only [coro_bus_try_send, h]
    rw [if_neg (by omega)]
    refine ⟨rfl, rfl, wakeup_first_fst ch.recv_queue, ?_, ?_⟩
    · rw [get_set_channel_self _ (get_bus_channel_nonneg h) (get_bus_channel_lt h)]
      rw [wakeup_first_snd]
    · intro j hj
      exact get_set_channel_other j _ (get_bus_channel_nonneg h) hj

theorem C2_try_send_contract_witness :
    get_bus_channel testState.bus 0 = some testChannel ∧
    testChannel.message_queue.length < testChannel.size_limit ∧
    (coro_bus_try_send testState 0 42).outcome = .done 0 ∧
    (coro_bus_try_send testState 0 42).woken = [21] ∧
    get_bus_channel (coro_bus_try_send testState 0 42).state.bus 0 =
      some { testChannel with message_queue := [5, 42], recv_queue := [] } := by
  have h := (C2_try_send_contract testState 0 42).2.2 testChannel (by decide) (by decide)
  refine ⟨by decide, by decide, h.1, h.2.2.1.trans (by decide), h.2.2.2.1.trans ?_⟩
  decide

/-- C10: each of the four vectored operations, called with a null buffer and a
nonzero count (for the send side) or nonzero buffer capacity (for the recv
side), returns −1 while writing `NONE` — the success code — to the error
slot, leaving the bus untouched; so `errno` read right after the failing
call is `NONE`. -/
theorem C10_null_buffer_errno (s : BusState) (channel : Int) (count : Nat) (self : Coro)
    (h : count ≠ 0) :
    coro_bus_send_v_attempt s channel none count self =
      { state := { bus := s.bus, errno := CORO_BUS_ERR_NONE },
        writes := [CORO_BUS_ERR_NONE], woken := [], out := [], outcome := .done (-1) } ∧
    coro_bus_try_send_v s channel none count =
      { state := { bus := s.bus, errno := CORO_BUS_ERR_NONE },
        writes := [CORO_BUS_ERR_NONE], woken := [], out := [], outcome := .done (-1) } ∧
    coro_bus_recv_v_attempt s channel none count self =
      { state := { bus := s.bus, errno := CORO_BUS_ERR_NONE },
        writes := [CORO_BUS_ERR_NONE], woken := [], out := [], outcome := .done (-1) } ∧
    coro_bus_try_recv_v s channel none count =
      { state := { bus := s.bus, errno := CORO_BUS_ERR_NONE },
        writes := [CORO_BUS_ERR_NONE], woken := [], out := [], outcome := .done (-1) } := by
  refine ⟨?_, ?_, ?_, ?_⟩ <;>
    simp [coro_bus_send_v_attempt, coro_bus_try_send_v, coro_bus_recv_v_attempt,
      coro_bus_try_recv_v, h]

theorem C10_null_buffer_errno_witness :
    (3 : Nat) ≠ 0 ∧
    coro_bus_try_send_v testState 0 none 3 =
      { state := { bus := testState.bus, errno := CORO_BUS_ERR_NONE },
        writes := [CORO_BUS_ERR_NONE], woken := [], out := [], outcome := .done (-1) } := by
  exact ⟨by decide, (C10_null_buffer_errno testState 0 3 9 (by decide)).2.1⟩

theorem open_writes (s : BusState) (sl : Nat) :
    (coro_bus_channel_open s sl).writes = [CORO_BUS_ERR_NONE] := by
  simp only [coro_bus_channel_open]
  split <;> rfl

theorem close_writes (s : BusState) (channel : Int) :
    (coro_bus_channel_close s channel).writes = [] := by
  simp only [coro_bus_channel_close]
  split <;> rfl

theorem try_broadcast_writes_length (s : BusState) (msg : Nat) :
    (coro_bus_try_broadcast s msg).writes.length = 1 := by
  simp only [coro_bus_try_broadcast]
  split
  · rfl
  split <;> rfl

theorem try_broadcast_success_writes (s : BusState) (msg : Nat)
    (h : (coro_bus_try_broadcast s msg).outcome = .done 0) :
    (coro_bus_try_broadcast s msg).writes = [CORO_BUS_ERR_NONE] := by
  revert h
  simp only [coro_bus_try_broadcast]
  split
  · intro h
    exact absurd h (by simp)
  split
  · intro h
    exact absurd h (by simp)
  · intro _
    rfl

theorem try_send_v_writes_length (s : BusState) (channel : Int) (data : Option (List Nat))
    (count : Nat) : (coro_bus_try_send_v s channel data count).writes.length = 1 := by
  simp only [coro_bus_try_send_v]
  split
  · rfl
  split
  · rfl
  split <;> rfl

theorem try_send_v_success_writes (s : BusState) (channel : Int) (data : Option (List Nat))
    (count : Nat) (k : Int) (hk : (coro_bus_try_send_v s channel data count).outcome = .done k)
    (hk0 : 0 ≤ k) : (coro_bus_try_send_v s channel data count).writes = [CORO_BUS_ERR_NONE] := by
  revert hk
  simp only [coro_bus_try_send_v]
  split
  · intro hk
    simp only [OpResult.mk.injEq] at hk
    cases hk
    omega
  split
  · intro hk
    simp only at hk
    cases hk
    omega
  split
  · intro hk
    simp only at hk
    cases hk
    omega
  · intro _
    rfl

theorem try_recv_v_writes_length (s : BusState) (channel : Int) (data : Option (List Nat))
    (capacity : Nat) : (coro_bus_try_recv_v s channel data capacity).writes.length = 1 := by
  simp only [coro_bus_try_recv_v]
  split
  · rfl
  split
  · rfl
  split <;> rfl

theorem try_recv_v_success_writes (s : BusState) (channel : Int) (data : Option (List Nat))
    (capacity : Nat) (k : Int)
    (hk : (coro_bus_try_recv_v s channel data capacity).outcome = .done k)
    (hk0 : 0 ≤ k) : (coro_bus_try_recv_v s channel data capacity).writes = [CORO_BUS_ERR_NONE] := by
  revert hk
  simp only [coro_bus_try_recv_v]
  split
  · intro hk
    simp only at hk
    cases hk
    omega
  split
  · intro hk
    simp only at hk
    cases hk
    omega
  split
  · intro hk
    simp only at hk
    cases hk
    omega
  · intro _
    rfl

theorem send_attempt_writes_length (s : BusState) (channel : Int) (msg : Nat) (self : Coro)
    (hret : (coro_bus_send_attempt s channel msg self).outcome ≠ .parked) :
    (coro_bus_send_attempt s channel msg self).writes.length = 1 := by
  revert hret
  simp only [coro_bus_send_attempt]
  split
  · intro _
    exact try_send_writes_length s channel msg
  split
  · intro _
    exact try_send_writes_length s channel msg
  next hok herr =>
    have hwb : (coro_bus_try_send s channel msg).state.errno = CORO_BUS_ERR_WOULD_BLOCK :=
      not_not.mp herr
    have hch := try_send_wb s channel msg hwb
    split
    next hget =>
      rw [hch.1] at hget
      exact absurd hget hch.2
    · intro hne
      exact absurd rfl hne

theorem send_attempt_success_writes (s : BusState) (channel : Int) (msg : Nat) (self : Coro)
    (h : (coro_bus_send_attempt s channel msg self).outcome = .done 0) :
    (coro_bus_send_attempt s channel msg self).writes = [CORO_BUS_ERR_NONE] := by
  revert h
  simp only [coro_bus_send_attempt]
  split
  next hok =>
    intro _
    exact try_send_success_writes s channel msg hok
  next hok =>
    split
    · intro h
      exact absurd h hok
    split
    · intro h
      simp only at h
      cases h
    · intro h
      exact coro_bus_outcome.noConfusion h

theorem recv_attempt_writes_length (s : BusState) (channel : Int) (self : Coro)
    (hret : (coro_bus_recv_attempt s channel self).outcome ≠ .parked) :
    (coro_bus_recv_attempt s channel self).writes.length = 1 := by
  revert hret
  simp only [coro_bus_recv_attempt]
  split
  · intro _
    exact try_recv_writes_length s channel
  split
  · intro _
    exact try_recv_writes_length s channel
  next hok herr =>
    have hwb : (coro_bus_try_recv s channel).state.errno = CORO_BUS_ERR_WOULD_BLOCK :=
      not_not.mp herr
    have hch := try_recv_wb s channel hwb
    split
    next hget =>
      rw [hch.1] at hget
      exact absurd hget hch.2
    · intro hne
      exact absurd rfl hne

theorem recv_attempt_success_writes (s : BusState) (channel : Int) (self : Coro)
    (h : (coro_bus_recv_attempt s channel self).outcome = .done 0) :
    (coro_bus_recv_attempt s channel self).writes = [CORO_BUS_ERR_NONE] := by
  revert h
  simp only [coro_bus_recv_attempt]
  split
  next hok =>
    intro _
    exact try_recv_success_writes s channel hok
  next hok =>
    split
    · intro h
      exact absurd h hok
    split
    · intro h
      simp only at h
      cases h
    · intro h
      exact coro_bus_outcome.noConfusion h

theorem send_v_attempt_writes_length (s : BusState) (channel : Int) (data : Option (List Nat))
    (count : Nat) (self : Coro)
    (hret : (coro_bus_send_v_attempt s channel data count self).outcome ≠ .parked) :
    (coro_bus_send_v_attempt s channel data count self).writes.length = 1 := by
  revert hret
  simp only [coro_bus_send_v_attempt]
  split
  · intro _
    rfl
  split
  · intro _
    rfl
  split
  · intro hne
    exact absurd rfl hne
  · intro _
    rfl

theorem send_v_attempt_success_writes (s : BusState) (channel : Int) (data : Option (List Nat))
    (count : Nat) (self : Coro) (k : Int)
    (hk : (coro_bus_send_v_attempt s channel data count self).outcome = .done k) (hk0 : 0 ≤ k) :
    (coro_bus_send_v_attempt s channel data count self).writes = [CORO_BUS_ERR_NONE] := by
  revert hk
  simp only [coro_bus_send_v_attempt]
  split
  · intro hk
    simp only at hk
    cases hk
    omega
  split
  · intro hk
    simp only at hk
    cases hk
    omega
  split
  · intro hk
    exact coro_bus_outcome.noConfusion hk
  · intro _
    rfl

theorem recv_v_attempt_writes_length (s : BusState) (channel : Int) (data : Option (List Nat))
    (capacity : Nat) (self : Coro)
    (hret : (coro_bus_recv_v_attempt s channel data capacity self).outcome ≠ .parked) :
    (coro_bus_recv_v_attempt s channel data capacity self).writes.length = 1 := by
  revert hret
  simp only [coro_bus_recv_v_attempt]
  split
  · intro _
    rfl
  split
  · intro _
    rfl
  split
  · intro hne
    exact absurd rfl hne
  · intro _
    rfl

theorem recv_v_attempt_success_writes (s : BusState) (channel : Int) (data : Option (List Nat))
    (capacity : Nat) (self : Coro) (k : Int)
    (hk : (coro_bus_recv_v_attempt s channel data capacity self).outcome = .done k) (hk0 : 0 ≤ k) :
    (coro_bus_recv_v_attempt s channel data capacity self).writes = [CORO_BUS_ERR_NONE] := by
  revert hk
  simp only [coro_bus_recv_v_attempt]
  split
  · intro hk
    simp only at hk
    cases hk
    omega
  split
  · intro hk
    simp only at hk
    cases hk
    omega
  split
  · intro hk
    exact coro_bus_outcome.noConfusion hk
  · intro _
    rfl

theorem broadcast_attempt_writes_length (s : BusState) (msg : Nat) (self : Coro)
    (hret : (coro_bus_broadcast_attempt s msg self).outcome ≠ .parked) :
    (coro_bus_broadcast_attempt s msg self).writes.length = 1 := by
  revert hret
  simp only [coro_bus_broadcast_attempt]
  split
  · intro _
    rfl
  split
  · intro _
    rfl
  split
  · intro hne
    exact absurd rfl hne
  · intro hne
    exact absurd rfl hne

theorem broadcast_attempt_success_writes (s : BusState) (msg : Nat) (self : Coro)
    (h : (coro_bus_broadcast_attempt s msg self).outcome = .done 0) :
    (coro_bus_broadcast_attempt s msg self).writes = [CORO_BUS_ERR_NONE] := by
  revert h
  simp only [coro_bus_broadcast_attempt]
  split
  · intro h
    simp only at h
    cases h
  split
  · intro _
    rfl
  split
  · intro h
    exact coro_bus_outcome.noConfusion h
  · intro h
    exact coro_bus_outcome.noConfusion h

/-- C4 counterexample: `close` is a public entry point, and on a concrete bus
with an open channel at id 0 (so close resolves and does its full work) it
performs zero errno writes, not exactly one — `coro_bus_channel_close`
contains no write of the error slot at all. -/
theorem C4_counterexample :
    (coro_bus_channel_close testState 0).writes.length ≠ 1 := by decide

/-- C4 amended: every public entry point except `close` writes the error slot
exactly once on each path that returns (not on paths that suspend), writing
`NONE` when it returns success; `close` never writes the error slot.  The
blocking entry points are covered through their non-suspending attempts,
which is where all their errno writes happen. -/
theorem C4_errno_discipline (s : BusState) (channel : Int) (msg sl count capacity : Nat)
    (data : Option (List Nat)) (self : Coro) :
    (coro_bus_channel_open s sl).writes = [CORO_BUS_ERR_NONE] ∧
    (coro_bus_try_send s channel msg).writes.length = 1 ∧
    ((coro_bus_try_send s channel msg).outcome = .done 0 →
      (coro_bus_try_send s channel msg).writes = [CORO_BUS_ERR_NONE]) ∧
    (coro_bus_try_recv s channel).writes.length = 1 ∧
    ((coro_bus_try_recv s channel).outcome = .done 0 →
      (coro_bus_try_recv s channel).writes = [CORO_BUS_ERR_NONE]) ∧
    (coro_bus_try_broadcast s msg).writes.length = 1 ∧
    ((coro_bus_try_broadcast s msg).outcome = .done 0 →
      (coro_bus_try_broadcast s msg).writes = [CORO_BUS_ERR_NONE]) ∧
    (coro_bus_try_send_v s channel data count).writes.length = 1 ∧
    (∀ k : Int, (coro_bus_try_send_v s channel data count).outcome = .done k → 0 ≤ k →
      (coro_bus_try_send_v s channel data count).writes = [CORO_BUS_ERR_NONE]) ∧
    (coro_bus_try_recv_v s channel data capacity).writes.length = 1 ∧
    (∀ k : Int, (coro_bus_try_recv_v s channel data capacity).outcome = .done k → 0 ≤ k →
      (coro_bus_try_recv_v s channel data capacity).writes = [CORO_BUS_ERR_NONE]) ∧
    ((coro_bus_send_attempt s channel msg self).outcome ≠ .parked →
      (coro_bus_send_attempt s channel msg self).writes.length = 1) ∧
    ((coro_bus_send_attempt s channel msg self).outcome = .done 0 →
      (coro_bus_send_attempt s channel msg self).writes = [CORO_BUS_ERR_NONE]) ∧
    ((coro_bus_recv_attempt s channel self).outcome ≠ .parked →
      (coro_bus_recv_attempt s channel self).writes.length = 1) ∧
    ((coro_bus_recv_attempt s channel self).outcome = .done 0 →
      (coro_bus_recv_attempt s channel self).writes = [CORO_BUS_ERR_NONE]) ∧
    ((coro_bus_send_v_attempt s channel data count self).outcome ≠ .parked →
      (coro_bus_send_v_attempt s channel data count self).writes.length = 1) ∧
    (∀ k : Int, (coro_bus_send_v_attempt s channel data count self).outcome = .done k → 0 ≤ k →
      (coro_bus_send_v_attempt s channel data count self).writes = [CORO_BUS_ERR_NONE]) ∧
    ((coro_bus_recv_v_attempt s channel data capacity self).outcome ≠ .parked →
      (coro_bus_recv_v_attempt s channel data capacity self).writes.length = 1) ∧
    (∀ k : Int, (coro_bus_recv_v_attempt s channel data capacity self).outcome = .done k → 0 ≤ k →
      (coro_bus_recv_v_attempt s channel data capacity self).writes = [CORO_BUS_ERR_NONE]) ∧
    ((coro_bus_broadcast_attempt s msg self).outcome ≠ .parked →
      (coro_bus_broadcast_attempt s msg self).writes.length = 1) ∧
    ((coro_bus_broadcast_attempt s msg self).outcome = .done 0 →
      (coro_bus_broadcast_attempt s msg self).writes = [CORO_BUS_ERR_NONE]) ∧
    (coro_bus_channel_close s channel).writes = [] :=
  ⟨open_writes s sl,
   try_send_writes_length s channel msg,
   try_send_success_writes s channel msg,
   try_recv_writes_length s channel,
   try_recv_success_writes s channel,
   try_broadcast_writes_length s msg,
   try_broadcast_success_writes s msg,
   try_send_v_writes_length s channel data count,
   fun k hk hk0 => try_send_v_success_writes s channel data count k hk hk0,
   try_recv_v_writes_length s channel data capacity,
   fun k hk hk0 => try_recv_v_success_writes s channel data capacity k hk hk0,
   send_attempt_writes_length s channel msg self,
   send_attempt_success_writes s channel msg self,
   recv_attempt_writes_length s channel self,
   recv_attempt_success_writes s channel self,
   send_v_attempt_writes_length s channel data count self,
   fun k hk hk0 => send_v_attempt_success_writes s channel data count self k hk hk0,
   recv_v_attempt_writes_length s channel data capacity self,
   fun k hk hk0 => recv_v_attempt_success_writes s channel data capacity self k hk hk0,
   broadcast_attempt_writes_length s msg self,
   broadcast_attempt_success_writes s msg self,
   close_writes s channel⟩

theorem C4_errno_discipline_witness :
    (coro_bus_try_send testState 0 42).outcome = .done 0 ∧
    (coro_bus_try_send testState 0 42).writes = [CORO_BUS_ERR_NONE] ∧
    (coro_bus_send_attempt testState 5 42 9).outcome ≠ .parked ∧
    (coro_bus_send_attempt testState 5 42 9).writes.length = 1 ∧
    (coro_bus_channel_close testState 0).writes = [] := by
  have h1 := C4_errno_discipline testState 0 42 1 1 1 (some [1]) 9
  have h2 := C4_errno_discipline testState 5 42 1 1 1 (some [1]) 9
  refine ⟨by decide, h1.2.2.1 (by decide), ?_, ?_, h1.2.2.2.2.2.2.2.2.2.2.2.2.2.2.2.2.2.2.2.2.2⟩
  · decide
  · exact h2.2.2.2.2.2.2.2.2.2.2.2.1 (by decide)

theorem findIdx?_some_spec {α : Type _} {l : List α} {p : α → Bool} {i : Nat}
    (h : l.findIdx? p = some i) :
    ∃ a, l[i]? = some a ∧ p a = true ∧
      ∀ j, j < i → ∀ b, l[j]? = some b → p b = false := by
  obtain ⟨hlt, hfi⟩ := List.findIdx?_eq_some_iff_findIdx_eq.mp h
  subst hfi
  refine ⟨l[l.findIdx p], List.getElem?_eq_getElem hlt, List.findIdx_getElem, ?_⟩
  intro j hj b hb
  have hjl : j < l.length := Nat.lt_trans hj hlt
  rw [List.getElem?_eq_getElem hjl] at hb
  have hbe : l[j] = b := by injection hb
  rw [← hbe]
  exact List.not_of_lt_findIdx hj

/-- The channel object installed by `open`: a requested capacity of 0 is
promoted to 1, the fifo and both wait queues start empty. -/
def fresh_channel (sl : Nat) : coro_bus_channel :=
  { size_limit := if sl = 0 then 1 else sl,
    send_queue := [], recv_queue := [], message_queue := [] }

/-- C7: when the descriptor table has a hole, `open` installs a fresh channel
in the first (lowest-index) hole, returns that index and sets `NONE`;
otherwise the table is doubled (from an initial / minimum of 2), the old
entries are kept as a prefix (copied), the new tail is all holes (zeroed)
except the former end, where the fresh channel is installed, and that former
end is returned, with `NONE` set. -/
theorem C7_open_descriptor_table (s : BusState) (sl : Nat) :
    (∀ index, (s.bus.channels.findIdx? fun slot => slot.isNone) = some index →
      (coro_bus_channel_open s sl).outcome = .done (index : Int) ∧
      s.bus.channels[index]? = some none ∧
      (∀ j, j < index → ∀ slot, s.bus.channels[j]? = some slot → slot ≠ none) ∧
      (coro_bus_channel_open s sl).state.bus.channels
        = s.bus.channels.set index (some (fresh_channel sl)) ∧
      (coro_bus_channel_open s sl).state.errno = CORO_BUS_ERR_NONE) ∧
    ((s.bus.channels.findIdx? fun slot => slot.isNone) = none →
      (coro_bus_channel_open s sl).outcome = .done (s.bus.channels.length : Int) ∧
      (coro_bus_channel_open s sl).state.bus.channels
        = s.bus.channels ++ some (fresh_channel sl) ::
            List.replicate ((if s.bus.channels.length = 0 then 2
              else s.bus.channels.length * 2) - s.bus.channels.length - 1) none ∧
      (coro_bus_channel_open s sl).state.bus.channels.length
        = (if s.bus.channels.length = 0 then 2 else s.bus.channels.length * 2) ∧
      (coro_bus_channel_open s sl).state.errno = CORO_BUS_ERR_NONE) := by
  constructor
  · intro index hf
    obtain ⟨a, ha, hpa, hbefore⟩ := findIdx?_some_spec hf
    have hanone : a = none := Option.isNone_iff_eq_none.mp hpa
    subst hanone
    refine ⟨?_, ha, ?_, ?_, ?_⟩
    · simp [coro_bus_channel_open, hf]
    · intro j hj slot hslot hcon
      subst hcon
      have := hbefore j hj none hslot
      simp at this
    · simp [coro_bus_channel_open, hf, fresh_channel]
    · simp [coro_bus_channel_open, hf]
  · intro hf
    refine ⟨?_, ?_, ?_, ?_⟩
    · simp [coro_bus_channel_open, hf]
    · simp only [coro_bus_channel_open, hf]
      rw [List.set_append, if_neg (by omega), Nat.sub_self]
      congr 1
      have hk : (if s.bus.channels.length = 0 then 2 else s.bus.channels.length * 2)
          - s.bus.channels.length
          = ((if s.bus.channels.length = 0 then 2 else s.bus.channels.length * 2)
            - s.bus.channels.length - 1) + 1 := by
        by_cases h0 : s.bus.channels.length = 0 <;> simp [h0] <;> omega
      rw [hk, List.replicate_succ]
      rfl
    · simp only [coro_bus_channel_open, hf]
      simp only [List.length_set, List.length_append, List.length_replicate]
      by_cases h0 : s.bus.channels.length = 0 <;> simp [h0] <;> omega
    · simp [coro_bus_channel_open, hf]

theorem C7_open_descriptor_table_witness :
    ((testState.bus.channels.findIdx? fun slot => slot.isNone) = some 1 ∧
      (coro_bus_channel_open testState 5).outcome = .done 1 ∧
      (coro_bus_channel_open testState 5).state.bus.channels
        = [some testChannel, some (fresh_channel 5)]) ∧
    ((fullState.bus.channels.findIdx? fun slot => slot.isNone) = none ∧
      (coro_bus_channel_open fullState 0).outcome = .done 1 ∧
      (coro_bus_channel_open fullState 0).state.bus.channels
        = [some fullChannel, some (fresh_channel 0)] ∧
      (coro_bus_channel_open fullState 0).state.bus.channels.length = 2) := by
  constructor
  · have h := (C7_open_descriptor_table testState 5).1 1 (by decide)
    exact ⟨by decide, h.1, h.2.2.2.1.trans (by decide)⟩
  · have h := (C7_open_descriptor_table fullState 0).2 (by decide)
    exact ⟨by decide, h.1, h.2.1.trans (by decide), h.2.2.1.trans (by decide)⟩

theorem open_installs (s : BusState) (sl : Nat) :
    ∃ n : Nat, (coro_bus_channel_open s sl).outcome = .done (n : Int) ∧
      get_bus_channel (coro_bus_channel_open s sl).state.bus (n : Int)
        = some (fresh_channel sl) := by
  simp only [coro_bus_channel_open]
  cases hf : s.bus.channels.findIdx? fun slot => slot.isNone with
  | some index =>
    refine ⟨index, rfl, ?_⟩
    obtain ⟨a, ha, hpa, hbefore⟩ := findIdx?_some_spec hf
    have hlt : index < s.bus.channels.length := (List.getElem?_eq_some.mp ha).1
    exact get_set_channel_self (b := s.bus) (i := (index : Int))
      (some (fresh_channel sl)) (by omega) (by omega)
  | none =>
    refine ⟨s.bus.channels.length, rfl, ?_⟩
    have hlen : ((s.bus.channels.length : Int)).toNat <
        (s.bus.channels ++ List.replicate
          ((if s.bus.channels.length = 0 then 2 else s.bus.channels.length * 2)
            - s.bus.channels.length) none).length := by
      simp only [List.length_append, List.length_replicate]
      by_cases h0 : s.bus.channels.length = 0 <;> simp [h0] <;> omega
    exact get_set_channel_self
      (b := { channels := (s.bus.channels ++ List.replicate ((if s.bus.channels.length = 0 then 2 else s.bus.channels.length * 2) - s.bus.channels.length) none) })
      (i := (s.bus.channels.length : Int))
      (some (fresh_channel sl)) (by omega) hlen

/-- C3: the capacity invariant — every open channel has capacity at least 1
and a fifo no longer than its capacity (lengths are naturals, so
`0 ≤ len(fifo)` holds by type) — is preserved by every public operation of
the bus, the blocking ones included through their non-suspending attempts;
and `open` installs a channel whose capacity is the requested one with 0
promoted to 1, so the invariant also holds for the newly opened channel. -/
theorem C3_capacity_invariant (s : BusState) (channel : Int) (msg sl count capacity : Nat)
    (data : Option (List Nat)) (self : Coro) (hinv : BusInv s.bus) :
    BusInv (coro_bus_channel_open s sl).state.bus ∧
    BusInv (coro_bus_channel_close s channel).state.bus ∧
    BusInv (coro_bus_send_attempt s channel msg self).state.bus ∧
    BusInv (coro_bus_recv_attempt s channel self).state.bus ∧
    BusInv (coro_bus_try_send s channel msg).state.bus ∧
    BusInv (coro_bus_try_recv s channel).state.bus ∧
    BusInv (coro_bus_send_v_attempt s channel data count self).state.bus ∧
    BusInv (coro_bus_recv_v_attempt s channel data capacity self).state.bus ∧
    BusInv (coro_bus_try_send_v s channel data count).state.bus ∧
    BusInv (coro_bus_try_recv_v s channel data capacity).state.bus ∧
    BusInv (coro_bus_broadcast_attempt s msg self).state.bus ∧
    BusInv (coro_bus_try_broadcast s msg).state.bus ∧
    (∃ n : Nat, (coro_bus_channel_open s sl).outcome = .done (n : Int) ∧
      get_bus_channel (coro_bus_channel_open s sl).state.bus (n : Int)
        = some (fresh_channel sl) ∧
      (fresh_channel sl).size_limit = (if sl = 0 then 1 else sl)) := by
  refine ⟨BusInv_open sl hinv, BusInv_close channel hinv,
    BusInv_send_attempt channel msg self hinv, BusInv_recv_attempt channel self hinv,
    BusInv_try_send channel msg hinv, BusInv_try_recv channel hinv,
    BusInv_send_v_attempt channel data count self hinv,
    BusInv_recv_v_attempt channel data capacity self hinv,
    BusInv_try_send_v channel data count hinv,
    BusInv_try_recv_v channel data capacity hinv,
    BusInv_broadcast_attempt msg self hinv,
    BusInv_try_broadcast msg hinv, ?_⟩
  obtain ⟨n, hout, hget⟩ := open_installs s sl
  exact ⟨n, hout, hget, rfl⟩

theorem C3_capacity_invariant_witness :
    BusInv testState.bus ∧
    BusInv (coro_bus_try_send testState 0 42).state.bus ∧
    BusInv (coro_bus_channel_open testState 0).state.bus ∧
    (∃ n : Nat, (coro_bus_channel_open testState 0).outcome = .done (n : Int) ∧
      get_bus_channel (coro_bus_channel_open testState 0).state.bus (n : Int)
        = some (fresh_channel 0) ∧
      (fresh_channel 0).size_limit = (if 0 = 0 then 1 else 0)) := by
  have h := C3_capacity_invariant testState 0 42 0 1 1 (some [1]) 9 (by decide)
  exact ⟨by decide, h.2.2.2.2.1, h.1, h.2.2.2.2.2.2.2.2.2.2.2.2⟩

theorem broadcast_push_fst (slot : Option coro_bus_channel) (m : Nat) :
    (broadcast_push slot m).1 = slot.map fun ch =>
      { ch with message_queue := ch.message_queue ++ [m],
                recv_queue := ch.recv_queue.drop 1 } := by
  cases slot with
  | none => rfl
  | some ch => simp [broadcast_push, wakeup_first_snd]

theorem broadcast_push_snd (slot : Option coro_bus_channel) (m : Nat) :
    (broadcast_push slot m).2 =
      (match slot with
       | none => ([] : List Coro)
       | some ch => ch.recv_queue.take 1) := by
  cases slot with
  | none => rfl
  | some ch => simp [broadcast_push, wakeup_first_fst]

/-- C5: `try_broadcast` is atomic with respect to capacity.  With no open
channel it fails with `NO_CHANNEL`; with any open channel full it fails with
`WOULD_BLOCK` leaving the whole bus (every fifo) unchanged; otherwise it
succeeds, every channel open at call time gains exactly the one tail message
`m` (holes stay holes), the first recv waiter of each open channel is woken
in table order, and the error slot is `NONE`. -/
theorem C5_try_broadcast_atomicity (s : BusState) (m : Nat) :
    (is_bus_has_any_channels s.bus = false →
      (coro_bus_try_broadcast s m).outcome = .done (-1) ∧
      (coro_bus_try_broadcast s m).state.errno = CORO_BUS_ERR_NO_CHANNEL ∧
      (coro_bus_try_broadcast s m).state.bus = s.bus) ∧
    (is_bus_has_any_channels s.bus = true → bus_has_full_channel s.bus = true →
      (coro_bus_try_broadcast s m).outcome = .done (-1) ∧
      (coro_bus_try_broadcast s m).state.errno = CORO_BUS_ERR_WOULD_BLOCK ∧
      (coro_bus_try_broadcast s m).state.bus = s.bus) ∧
    (is_bus_has_any_channels s.bus = true → bus_has_full_channel s.bus = false →
      (coro_bus_try_broadcast s m).outcome = .done 0 ∧
      (coro_bus_try_broadcast s m).state.errno = CORO_BUS_ERR_NONE ∧
      (∀ i ch, get_bus_channel s.bus i = some ch →
        get_bus_channel (coro_bus_try_broadcast s m).state.bus i =
          some { ch with message_queue := ch.message_queue ++ [m],
                         recv_queue := ch.recv_queue.drop 1 }) ∧
      (∀ i, get_bus_channel s.bus i = none →
        get_bus_channel (coro_bus_try_broadcast s m).state.bus i = none) ∧
      (coro_bus_try_broadcast s m).woken
        = (s.bus.channels.map fun slot =>
            (match slot with
             | none => ([] : List Coro)
             | some ch => ch.recv_queue.take 1)).flatten) := by
  refine ⟨?_, ?_, ?_⟩
  · intro hany
    simp [coro_bus_try_broadcast, hany]
  · intro hany hfull
    simp [coro_bus_try_broadcast, hany, hfull]
  · intro hany hfull
    have hbus : (coro_bus_try_broadcast s m).state.bus
        = { channels := s.bus.channels.map fun slot => (broadcast_push slot m).1 } := by
      simp [coro_bus_try_broadcast, hany, hfull]
    have hwoken : (coro_bus_try_broadcast s m).woken
        = (s.bus.channels.map fun slot => (broadcast_push slot m).2).flatten := by
      simp [coro_bus_try_broadcast, hany, hfull]
    refine ⟨by simp [coro_bus_try_broadcast, hany, hfull],
            by simp [coro_bus_try_broadcast, hany, hfull], ?_, ?_, ?_⟩
    · intro i ch hch
      have h0 : ¬ i < 0 := by have := get_bus_channel_nonneg hch; omega
      have hl := get_bus_channel_getElem hch
      rw [hbus, get_bus_channel, if_neg h0]
      rw [show ({ channels := s.bus.channels.map fun slot => (broadcast_push slot m).1 } :
            coro_bus).channels
          = s.bus.channels.map (fun slot => (broadcast_push slot m).1) from rfl]
      rw [List.getElem?_map, hl]
      simp [broadcast_push_fst]
    · intro i hch
      by_cases h0 : i < 0
      · rw [hbus]
        simp [get_bus_channel, h0]
      · rw [get_bus_channel, if_neg h0] at hch
        rw [hbus, get_bus_channel, if_neg h0]
        rw [show ({ channels := s.bus.channels.map fun slot => (broadcast_push slot m).1 } :
              coro_bus).channels
            = s.bus.channels.map (fun slot => (broadcast_push slot m).1) from rfl]
        rw [List.getElem?_map]
        cases hsl : s.bus.channels[i.toNat]? with
        | none => simp
        | some slot =>
          rw [hsl] at hch
          cases slot with
          | none => simp [broadcast_push_fst]
          | some c => exact absurd hch (by simp)
    · rw [hwoken]
      simp only [broadcast_push_snd]

theorem C5_try_broadcast_atomicity_witness :
    is_bus_has_any_channels testState.bus = true ∧
    bus_has_full_channel testState.bus = false ∧
    (coro_bus_try_broadcast testState 7).outcome = .done 0 ∧
    get_bus_channel (coro_bus_try_broadcast testState 7).state.bus 0 =
      some { testChannel with message_queue := testChannel.message_queue ++ [7],
                              recv_queue := testChannel.recv_queue.drop 1 } ∧
    (coro_bus_try_broadcast fullState 7).outcome = .done (-1) ∧
    (coro_bus_try_broadcast fullState 7).state.bus = fullState.bus := by
  have h1 := (C5_try_broadcast_atomicity testState 7).2.2 (by decide) (by decide)
  have h2 := (C5_try_broadcast_atomicity fullState 7).2.1 (by decide) (by decide)
  exact ⟨by decide, by decide, h1.1, h1.2.2.1 0 testChannel (by decide), h2.1, h2.2.2⟩

theorem try_send_step {s : BusState} {channel : Int} {ch : coro_bus_channel} (msg : Nat)
    (hch : get_bus_channel s.bus channel = some ch)
    (hroom : ch.message_queue.length < ch.size_limit) :
    (coro_bus_try_send s channel msg).outcome = .done 0 ∧
    (coro_bus_try_send s channel msg).state.bus
      = set_channel s.bus channel
          (some { ch with message_queue := ch.message_queue ++ [msg],
                          recv_queue := ch.recv_queue.drop 1 }) := by
  simp only [coro_bus_try_send, hch]
  rw [if_neg (by omega)]
  exact ⟨rfl, by rw [wakeup_first_snd]⟩

theorem try_recv_step {s : BusState} {channel : Int} {ch : coro_bus_channel}
    {front : Nat} {rest : List Nat}
    (hch : get_bus_channel s.bus channel = some ch)
    (hq : ch.message_queue = front :: rest) :
    (coro_bus_try_recv s channel).outcome = .done 0 ∧
    (coro_bus_try_recv s channel).out = [front] ∧
    (coro_bus_try_recv s channel).state.bus
      = set_channel s.bus channel
          (some { ch with message_queue := rest,
                          send_queue := ch.send_queue.drop 1 }) := by
  simp only [coro_bus_try_recv, hch, hq]
  exact ⟨trivial, trivial, by rw [wakeup_first_snd]⟩

theorem run_trace_send_state (s : BusState) (channel : Int) (m : Nat) (tr : List bus_action) :
    (run_trace s channel (.send m :: tr)).1
      = (run_trace (coro_bus_try_send s channel m).state channel tr).1 := rfl

theorem run_trace_send_outs (s : BusState) (channel : Int) (m : Nat) (tr : List bus_action) :
    (run_trace s channel (.send m :: tr)).2.1
      = (run_trace (coro_bus_try_send s channel m).state channel tr).2.1 := rfl

theorem run_trace_send_ok (s : BusState) (channel : Int) (m : Nat) (tr : List bus_action) :
    (run_trace s channel (.send m :: tr)).2.2
      = (decide ((coro_bus_try_send s channel m).outcome = .done 0)
          && (run_trace (coro_bus_try_send s channel m).state channel tr).2.2) := rfl

theorem run_trace_recv_state (s : BusState) (channel : Int) (tr : List bus_action) :
    (run_trace s channel (.recv :: tr)).1
      = (run_trace (coro_bus_try_recv s channel).state channel tr).1 := rfl

theorem run_trace_recv_outs (s : BusState) (channel : Int) (tr : List bus_action) :
    (run_trace s channel (.recv :: tr)).2.1
      = (coro_bus_try_recv s channel).out
          ++ (run_trace (coro_bus_try_recv s channel).state channel tr).2.1 := rfl

theorem run_trace_recv_ok (s : BusState) (channel : Int) (tr : List bus_action) :
    (run_trace s channel (.recv :: tr)).2.2
      = (decide ((coro_bus_try_recv s channel).outcome = .done 0)
          && (run_trace (coro_bus_try_recv s channel).state channel tr).2.2) := rfl

theorem try_send_done0_room {s : BusState} {channel : Int} {ch : coro_bus_channel} {msg : Nat}
    (hch : get_bus_channel s.bus channel = some ch)
    (hdone : (coro_bus_try_send s channel msg).outcome = .done 0) :
    ch.message_queue.length < ch.size_limit := by
  by_contra hfull
  simp only [coro_bus_try_send, hch] at hdone
  rw [if_pos (by omega)] at hdone
  simp at hdone

theorem try_recv_done0_nonempty {s : BusState} {channel : Int} {ch : coro_bus_channel}
    (hch : get_bus_channel s.bus channel = some ch)
    (hdone : (coro_bus_try_recv s channel).outcome = .done 0) :
    ch.message_queue ≠ [] := by
  intro hnil
  simp only [coro_bus_try_recv, hch, hnil] at hdone
  simp at hdone

theorem run_trace_spec (tr : List bus_action) (s : BusState) (channel : Int)
    (ch : coro_bus_channel)
    (hch : get_bus_channel s.bus channel = some ch)
    (hok : (run_trace s channel tr).2.2 = true) :
    ∃ ch2, get_bus_channel (run_trace s channel tr).1.bus channel = some ch2 ∧
      ch2.size_limit = ch.size_limit ∧
      (run_trace s channel tr).2.1 ++ ch2.message_queue
        = ch.message_queue ++ sent_messages tr := by
  induction tr generalizing s ch with
  | nil =>
    exact ⟨ch, hch, rfl, by simp [run_trace, sent_messages]⟩
  | cons a tr ih =>
    cases a with
    | send m =>
      rw [run_trace_send_ok, Bool.and_eq_true, decide_eq_true_eq] at hok
      obtain ⟨hdone, hok2⟩ := hok
      have hroom := try_send_done0_room hch hdone
      obtain ⟨-, hbus⟩ := try_send_step m hch hroom
      have hch1 : get_bus_channel (coro_bus_try_send s channel m).state.bus channel
          = some { ch with message_queue := ch.message_queue ++ [m],
                           recv_queue := ch.recv_queue.drop 1 } := by
        rw [hbus]
        exact get_set_channel_self _ (get_bus_channel_nonneg hch) (get_bus_channel_lt hch)
      obtain ⟨ch2, hg2, hs2, heq⟩ := ih (coro_bus_try_send s channel m).state _ hch1 hok2
      refine ⟨ch2, ?_, ?_, ?_⟩
      · rw [run_trace_send_state]
        exact hg2
      · exact hs2
      · rw [run_trace_send_outs]
        simp only [sent_messages]
        rw [heq]
        simp
    | recv =>
      rw [run_trace_recv_ok, Bool.and_eq_true, decide_eq_true_eq] at hok
      obtain ⟨hdone, hok2⟩ := hok
      have hne := try_recv_done0_nonempty hch hdone
      cases hq : ch.message_queue with
      | nil => exact absurd hq hne
      | cons front rest =>
        obtain ⟨-, hout, hbus⟩ := try_recv_step hch hq
        have hch1 : get_bus_channel (coro_bus_try_recv s channel).state.bus channel
            = some { ch with message_queue := rest,
                             send_queue := ch.send_queue.drop 1 } := by
          rw [hbus]
          exact get_set_channel_self _ (get_bus_channel_nonneg hch) (get_bus_channel_lt hch)
        obtain ⟨ch2, hg2, hs2, heq⟩ := ih (coro_bus_try_recv s channel).state _ hch1 hok2
        refine ⟨ch2, ?_, ?_, ?_⟩
        · rw [run_trace_recv_state]
          exact hg2
        · exact hs2
        · rw [run_trace_recv_outs, hout]
          simp only [sent_messages]
          simp [heq]

/-- A test channel of capacity 1 with an empty fifo, for the FIFO witness:
with capacity 1, delivering two messages forces an interleaved receive. -/
def oneChannel : coro_bus_channel :=
  { size_limit := 1, send_queue := [], recv_queue := [], message_queue := [] }

/-- A test bus holding only `oneChannel` at id 0. -/
def oneState : BusState :=
  { bus := { channels := [some oneChannel] }, errno := CORO_BUS_ERR_NONE }

/-- C6: per-channel FIFO order, for arbitrary interleavings.  For every
sequence of completed operations on one channel — sends `m₁,…,mₙ` from any
coroutines, interleaved arbitrarily with receives, with no bound on `n`
relative to the capacity — the values returned to the receivers, in order,
followed by the messages still queued, are exactly `m₁,…,mₙ` in send order;
in particular once every sent message has been received, the receives
returned exactly `m₁,…,mₙ` in the same order.  Sends append at the fifo
tail and recvs pop the head. -/
theorem C6_fifo_order (s : BusState) (channel : Int) (tr : List bus_action)
    (ch : coro_bus_channel)
    (hch : get_bus_channel s.bus channel = some ch)
    (hempty : ch.message_queue = [])
    (hok : (run_trace s channel tr).2.2 = true) :
    ∃ ch2, get_bus_channel (run_trace s channel tr).1.bus channel = some ch2 ∧
      (run_trace s channel tr).2.1 ++ ch2.message_queue = sent_messages tr ∧
      (ch2.message_queue = [] →
        (run_trace s channel tr).2.1 = sent_messages tr) := by
  obtain ⟨ch2, hg2, -, heq⟩ := run_trace_spec tr s channel ch hch hok
  rw [hempty] at heq
  simp only [List.nil_append] at heq
  refine ⟨ch2, hg2, heq, ?_⟩
  intro hdrained
  rw [hdrained] at heq
  simpa using heq

theorem C6_fifo_order_witness :
    get_bus_channel oneState.bus 0 = some oneChannel ∧
    oneChannel.message_queue = [] ∧
    (run_trace oneState 0 [.send 1, .recv, .send 2, .recv]).2.2 = true ∧
    sent_messages [.send 1, .recv, .send 2, .recv] = [1, 2] ∧
    (run_trace oneState 0 [.send 1, .recv, .send 2, .recv]).2.1 = [1, 2] := by
  obtain ⟨ch2, hg, hpre, hexact⟩ := C6_fifo_order oneState 0
    [.send 1, .recv, .send 2, .recv] oneChannel (by decide) (by decide) (by decide)
  have hconc : get_bus_channel
      (run_trace oneState 0 [.send 1, .recv, .send 2, .recv]).1.bus 0
      = some { size_limit := 1, send_queue := [], recv_queue := [],
               message_queue := [] } := by decide
  have hch2 : ch2 = { size_limit := 1, send_queue := [], recv_queue := [],
                      message_queue := [] } :=
    Option.some.inj (hg.symm.trans hconc)
  refine ⟨by decide, by decide, by decide, by decide, ?_⟩
  exact (hexact (by rw [hch2])).trans (by decide)

/-- C8 counterexample: on a full channel (so `k = min(count, capacity −
len(fifo)) = 0`) with `count = 0`, the claim says the call does not block
(blocking is reserved for `k = 0` with `count > 0`) and returns `k = 0`; but
`send_v` parks the caller whenever no space is available, `count`
notwithstanding, and `try_send_v` fails with `WOULD_BLOCK` instead of
returning 0. -/
theorem C8_counterexample :
    get_bus_channel fullState.bus 0 = some fullChannel ∧
    min 0 (fullChannel.size_limit - fullChannel.message_queue.length) = 0 ∧
    (coro_bus_send_v_attempt fullState 0 (some []) 0 9).outcome = .parked ∧
    (coro_bus_try_send_v fullState 0 (some []) 0).outcome = .done (-1) := by decide

/-- C8 amended: past the null-buffer guard and on a resolving channel,
`send_v` blocks on `send_waiters` (parking the caller at the queue tail) iff
`capacity − len(fifo) = 0`, regardless of `count`; `try_send_v` fails with
`WOULD_BLOCK` in exactly that case and leaves the bus unchanged.  Otherwise
both behave identically: they append `k = min(count, capacity − len(fifo))`
messages from the buffer to the fifo, wake the first `k` recv waiters, set
`NONE` and return `k`. -/
theorem C8_send_v_semantics (s : BusState) (channel : Int) (data : Option (List Nat))
    (count : Nat) (self : Coro) (ch : coro_bus_channel)
    (hguard : ¬ (data = none ∧ count ≠ 0))
    (hbuf : count ≤ (data.getD []).length)
    (hch : get_bus_channel s.bus channel = some ch) :
    (ch.size_limit - ch.message_queue.length = 0 →
      (coro_bus_send_v_attempt s channel data count self).outcome = .parked ∧
      get_bus_channel (coro_bus_send_v_attempt s channel data count self).state.bus channel
        = some { ch with send_queue := ch.send_queue ++ [self] } ∧
      (coro_bus_try_send_v s channel data count).outcome = .done (-1) ∧
      (coro_bus_try_send_v s channel data count).state.errno = CORO_BUS_ERR_WOULD_BLOCK ∧
      (coro_bus_try_send_v s channel data count).state.bus = s.bus) ∧
    (0 < ch.size_limit - ch.message_queue.length →
      coro_bus_try_send_v s channel data count
        = coro_bus_send_v_attempt s channel data count self ∧
      (coro_bus_send_v_attempt s channel data count self).outcome
        = .done ((min count (ch.size_limit - ch.message_queue.length) : Nat) : Int) ∧
      ((data.getD []).take (min count (ch.size_limit - ch.message_queue.length))).length
        = min count (ch.size_limit - ch.message_queue.length) ∧
      get_bus_channel (coro_bus_send_v_attempt s channel data count self).state.bus channel
        = some { ch with
            message_queue := ch.message_queue
              ++ (data.getD []).take (min count (ch.size_limit - ch.message_queue.length)),
            recv_queue := ch.recv_queue.drop
              (min count (ch.size_limit - ch.message_queue.length)) } ∧
      (coro_bus_send_v_attempt s channel data count self).woken
        = ch.recv_queue.take (min count (ch.size_limit - ch.message_queue.length)) ∧
      (coro_bus_send_v_attempt s channel data count self).state.errno
        = CORO_BUS_ERR_NONE) := by
  constructor
  · intro hava
    have hatt : coro_bus_send_v_attempt s channel data count self =
        { state :=
            { bus := (set_channel s.bus channel
                        (some { ch with send_queue := ch.send_queue ++ [self] })),
              errno := s.errno },
          writes := [], woken := [], out := [], outcome := .parked } := by
      simp only [coro_bus_send_v_attempt, hch]
      rw [if_neg hguard, if_pos hava]
    have htry : coro_bus_try_send_v s channel data count =
        { state := { bus := s.bus, errno := CORO_BUS_ERR_WOULD_BLOCK },
          writes := [CORO_BUS_ERR_WOULD_BLOCK], woken := [], out := [],
          outcome := .done (-1) } := by
      simp only [coro_bus_try_send_v, hch]
      rw [if_neg hguard, if_pos hava]
    rw [hatt, htry]
    refine ⟨rfl, ?_, rfl, rfl, rfl⟩
    exact get_set_channel_self _ (get_bus_channel_nonneg hch) (get_bus_channel_lt hch)
  · intro hava
    have hatt : coro_bus_send_v_attempt s channel data count self =
        { state :=
            { bus := (set_channel s.bus channel
                        (some { ch with
                                message_queue := (ch.message_queue ++
                                  (data.getD []).take
                                    (min count (ch.size_limit - ch.message_queue.length))),
                                recv_queue := (ch.recv_queue.drop
                                  (min count (ch.size_limit - ch.message_queue.length))) })),
              errno := CORO_BUS_ERR_NONE },
          writes := [CORO_BUS_ERR_NONE],
          woken := (ch.recv_queue.take (min count (ch.size_limit - ch.message_queue.length))),
          out := [],
          outcome := (.done ((min count (ch.size_limit - ch.message_queue.length) : Nat) : Int)) } := by
      simp only [coro_bus_send_v_attempt, hch]
      rw [if_neg hguard, if_neg (by omega)]
      rw [wakeup_n_fst, wakeup_n_snd]
    have htry : coro_bus_try_send_v s channel data count
        = coro_bus_send_v_attempt s channel data count self := by
      rw [hatt]
      simp only [coro_bus_try_send_v, hch]
      rw [if_neg hguard, if_neg (by omega)]
      rw [wakeup_n_fst, wakeup_n_snd]
    rw [hatt]
    refine ⟨by rw [htry, hatt], rfl, ?_, ?_, rfl, rfl⟩
    · simp only [List.length_take]
      omega
    · exact get_set_channel_self _ (get_bus_channel_nonneg hch) (get_bus_channel_lt hch)

theorem C8_send_v_semantics_witness :
    get_bus_channel emptyState.bus 0 = some emptyChannel ∧
    (2 : Nat) ≤ [7, 8].length ∧
    0 < emptyChannel.size_limit - emptyChannel.message_queue.length ∧
    (coro_bus_send_v_attempt emptyState 0 (some [7, 8]) 2 9).outcome = .done 2 ∧
    get_bus_channel (coro_bus_send_v_attempt emptyState 0 (some [7, 8]) 2 9).state.bus 0
      = some { emptyChannel with message_queue := [7, 8] } := by
  have h := (C8_send_v_semantics emptyState 0 (some [7, 8]) 2 9 emptyChannel
    (by simp) (by decide) (by decide)).2 (by decide)
  refine ⟨by decide, by decide, by decide, ?_, ?_⟩
  · exact h.2.1.trans (by decide)
  · exact h.2.2.2.1.trans (by decide)

/-- C9 counterexample: on a full channel — a perfectly valid channel id —
`try_send_v` with `count = 0` and a null buffer does not return 0 as the
claim requires: it fails with −1 and `WOULD_BLOCK`, because the
no-space check precedes the `count = 0` short-circuit. -/
theorem C9_counterexample :
    get_bus_channel fullState.bus 0 = some fullChannel ∧
    (coro_bus_try_send_v fullState 0 none 0).outcome = .done (-1) ∧
    (coro_bus_try_send_v fullState 0 none 0).state.errno = CORO_BUS_ERR_WOULD_BLOCK := by
  decide

/-- C9 amended: `buf = null` with a nonzero count (or caller-buffer capacity)
is rejected with −1 by all four vectored operations.  A `buf = null`,
`count = 0` call passes the null check and returns 0 — but only when the
channel is not full (send side) or not empty (recv side); on a full (resp.
empty) channel the try variants fail with `WOULD_BLOCK` and the blocking
variants park the caller instead of returning 0. -/
theorem C9_null_zero_count (s : BusState) (channel : Int) (count : Nat) (self : Coro)
    (ch : coro_bus_channel) (hch : get_bus_channel s.bus channel = some ch) :
    (count ≠ 0 →
      (coro_bus_send_v_attempt s channel none count self).outcome = .done (-1) ∧
      (coro_bus_try_send_v s channel none count).outcome = .done (-1) ∧
      (coro_bus_recv_v_attempt s channel none count self).outcome = .done (-1) ∧
      (coro_bus_try_recv_v s channel none count).outcome = .done (-1)) ∧
    (ch.size_limit - ch.message_queue.length ≠ 0 →
      (coro_bus_try_send_v s channel none 0).outcome = .done 0 ∧
      (coro_bus_send_v_attempt s channel none 0 self).outcome = .done 0) ∧
    (ch.size_limit - ch.message_queue.length = 0 →
      (coro_bus_try_send_v s channel none 0).outcome = .done (-1) ∧
      (coro_bus_try_send_v s channel none 0).state.errno = CORO_BUS_ERR_WOULD_BLOCK ∧
      (coro_bus_send_v_attempt s channel none 0 self).outcome = .parked) ∧
    (ch.message_queue ≠ [] →
      (coro_bus_try_recv_v s channel none 0).outcome = .done 0 ∧
      (coro_bus_recv_v_attempt s channel none 0 self).outcome = .done 0) ∧
    (ch.message_queue = [] →
      (coro_bus_try_recv_v s channel none 0).outcome = .done (-1) ∧
      (coro_bus_try_recv_v s channel none 0).state.errno = CORO_BUS_ERR_WOULD_BLOCK ∧
      (coro_bus_recv_v_attempt s channel none 0 self).outcome = .parked) := by
  refine ⟨?_, ?_, ?_, ?_, ?_⟩
  · intro hcount
    refine ⟨?_, ?_, ?_, ?_⟩ <;>
      simp [coro_bus_send_v_attempt, coro_bus_try_send_v, coro_bus_recv_v_attempt,
        coro_bus_try_recv_v, hcount]
  · intro hava
    constructor
    · simp only [coro_bus_try_send_v, hch]
      rw [if_neg (by simp), if_neg hava]
      simp
    · simp only [coro_bus_send_v_attempt, hch]
      rw [if_neg (by simp), if_neg hava]
      simp
  · intro hava
    refine ⟨?_, ?_, ?_⟩
    · simp only [coro_bus_try_send_v, hch]
      rw [if_neg (by simp), if_pos hava]
    · simp only [coro_bus_try_send_v, hch]
      rw [if_neg (by simp), if_pos hava]
    · simp only [coro_bus_send_v_attempt, hch]
      rw [if_neg (by simp), if_pos hava]
  · intro hne
    have hemp : ch.message_queue.isEmpty = false := by
      cases hq : ch.message_queue with
      | nil => exact absurd hq hne
      | cons a t => rfl
    constructor
    · simp only [coro_bus_try_recv_v, hch, hemp]
      rw [if_neg (by simp)]
      simp
    · simp only [coro_bus_recv_v_attempt, hch, hemp]
      rw [if_neg (by simp)]
      simp
  · intro hnil
    have hemp : ch.message_queue.isEmpty = true := by
      rw [hnil]
      rfl
    refine ⟨?_, ?_, ?_⟩
    · simp only [coro_bus_try_recv_v, hch, hemp]
      rw [if_neg (by simp)]
      simp
    · simp only [coro_bus_try_recv_v, hch, hemp]
      rw [if_neg (by simp)]
      simp
    · simp only [coro_bus_recv_v_attempt, hch, hemp]
      rw [if_neg (by simp)]
      simp

theorem C9_null_zero_count_witness :
    get_bus_channel emptyState.bus 0 = some emptyChannel ∧
    (coro_bus_try_send_v emptyState 0 none 3).outcome = .done (-1) ∧
    (coro_bus_try_send_v emptyState 0 none 0).outcome = .done 0 ∧
    (coro_bus_try_recv_v emptyState 0 none 0).outcome = .done (-1) := by
  have h := C9_null_zero_count emptyState 0 3 9 emptyChannel (by decide)
  exact ⟨by decide, (h.1 (by decide)).2.1, (h.2.1 (by decide)).1, (h.2.2.2.2 (by decide)).1⟩
